import Mathlib

/-!
Verification development for the JWT verification engine in
`src/src/envoy/http/jwt_auth/jwt.cc` (Envoy::Http::JwtAuth).

C++ byte strings (`std::string`) are modelled as `List Nat` (one entry per
byte).  Out-of-bounds accesses (undefined behavior in the C++ source) are
modelled by returning `none` from the functions that would perform them, so
a result of `none` marks an execution with no defined C++ semantics.

External collaborators that are not part of this repository (the protobuf
JSON parser, BoringSSL's cryptographic primitives, SHA-256) are passed in as
explicit function parameters, so every theorem quantifies over all possible
behaviors of those collaborators.
-/

namespace JwtAuth

/-- Byte list of an ASCII string literal (each char is one byte). -/
def str (s : String) : List Nat := s.data.map Char.toNat

/-- The `Status` enum of jwt.h, with the constructors listed in
`StatusToString` (jwt.cc lines 41-71). -/
inductive Status where
  | OK
  | JWT_MISSED
  | JWT_EXPIRED
  | JWT_BAD_FORMAT
  | JWT_HEADER_PARSE_ERROR
  | JWT_HEADER_NO_ALG
  | JWT_HEADER_BAD_ALG
  | JWT_SIGNATURE_PARSE_ERROR
  | JWT_INVALID_SIGNATURE
  | JWT_PAYLOAD_PARSE_ERROR
  | JWT_HEADER_BAD_KID
  | JWT_UNKNOWN_ISSUER
  | JWK_PARSE_ERROR
  | JWK_NO_KEYS
  | JWK_BAD_KEYS
  | JWK_NO_VALID_PUBKEY
  | KID_ALG_UNMATCH
  | ALG_NOT_IMPLEMENTED
  | PEM_PUBKEY_BAD_BASE64
  | PEM_PUBKEY_PARSE_ERROR
  | JWK_RSA_PUBKEY_PARSE_ERROR
  | FAILED_CREATE_EC_KEY
  | JWK_EC_PUBKEY_PARSE_ERROR
  | FAILED_CREATE_ECDSA_SIGNATURE
  | AUDIENCE_NOT_ALLOWED
  | FAILED_FETCH_PUBKEY

deriving instance DecidableEq, Repr for Status

/-- Modelled from the spec: `WithStatus::UpdateStatus` (declared in jwt.h,
which is not under src/): "the first error encountered becomes the terminal
status" — an update never overwrites an already non-OK status. -/
def updateStatus (cur upd : Status) : Status :=
  if cur = Status.OK then upd else cur

/-- Model of `kReverseLookupTableBase64Url` (jwt.cc lines 79-93): 256 entries; the
value 64 marks a byte outside the base64url alphabet. -/
def kReverseLookupTableBase64Url : List Nat :=
  [64, 64, 64, 64, 64, 64, 64, 64, 64, 64, 64, 64, 64, 64, 64, 64,
   64, 64, 64, 64, 64, 64, 64, 64, 64, 64, 64, 64, 64, 64, 64, 64,
   64, 64, 64, 64, 64, 64, 64, 64, 64, 64, 64, 64, 64, 62, 64, 64,
   52, 53, 54, 55, 56, 57, 58, 59, 60, 61, 64, 64, 64, 64, 64, 64,
   64, 0, 1, 2, 3, 4, 5, 6, 7, 8, 9, 10, 11, 12, 13, 14,
   15, 16, 17, 18, 19, 20, 21, 22, 23, 24, 25, 64, 64, 64, 64, 63,
   64, 26, 27, 28, 29, 30, 31, 32, 33, 34, 35, 36, 37, 38, 39, 40,
   41, 42, 43, 44, 45, 46, 47, 48, 49, 50, 51, 64, 64, 64, 64, 64,
   64, 64, 64, 64, 64, 64, 64, 64, 64, 64, 64, 64, 64, 64, 64, 64,
   64, 64, 64, 64, 64, 64, 64, 64, 64, 64, 64, 64, 64, 64, 64, 64,
   64, 64, 64, 64, 64, 64, 64, 64, 64, 64, 64, 64, 64, 64, 64, 64,
   64, 64, 64, 64, 64, 64, 64, 64, 64, 64, 64, 64, 64, 64, 64, 64,
   64, 64, 64, 64, 64, 64, 64, 64, 64, 64, 64, 64, 64, 64, 64, 64,
   64, 64, 64, 64, 64, 64, 64, 64, 64, 64, 64, 64, 64, 64, 64, 64,
   64, 64, 64, 64, 64, 64, 64, 64, 64, 64, 64, 64, 64, 64, 64, 64,
   64, 64, 64, 64, 64, 64, 64, 64, 64, 64, 64, 64, 64, 64, 64, 64]

/-- Model of `IsNotBase64UrlChar` (jwt.cc lines 95-97) for table indices that are in
bounds, i.e. bytes below 128: `table[c] & 64`. -/
def isNotBase64UrlChar (b : Nat) : Bool :=
  (kReverseLookupTableBase64Url.getD b 0) &&& 64 ≠ 0

/-- Model of `std::string::operator[]` with an `int` index (as used at jwt.cc lines
106 and 108): valid for `0 ≤ i < size` (the byte) and for `i = size` (the
null terminator, value 0); any other index is an out-of-bounds access with
undefined behavior, modelled as `none`. -/
def cppIndex (s : List Nat) (i : Int) : Option Nat :=
  if 0 ≤ i then
    if i.toNat < s.length then some (s.getD i.toNat 0)
    else if i.toNat = s.length then some 0
    else none
  else none

/-- The `std::find_if(input.begin(), input.end(), IsNotBase64UrlChar)` scan
(jwt.cc lines 115-116).  The predicate is evaluated left to right; a byte at
or above 128 is sign-extended to a negative `int8_t` and indexes the lookup
table out of bounds, which is undefined behavior (`none`).  `some true`
means a non-base64url byte was found, `some false` means none was. -/
def findNotBase64UrlChar : List Nat → Option Bool
  | [] => some false
  | b :: rest =>
    if b ≥ 128 then none
    else if isNotBase64UrlChar b then some true
    else findNotBase64UrlChar rest

/-- Value of one standard-base64 alphabet character (A-Z a-z 0-9 + /). -/
def b64CharValue (c : Nat) : Option Nat :=
  if 65 ≤ c ∧ c ≤ 90 then some (c - 65)
  else if 97 ≤ c ∧ c ≤ 122 then some (c - 71)
  else if 48 ≤ c ∧ c ≤ 57 then some (c + 4)
  else if c = 43 then some 62
  else if c = 47 then some 63
  else none

/-- Modelled from the spec: the final step of `decode` "run standard base64
decode" (`Base64::decode` from Envoy's common/base64, not under src/):
4-character groups become 3 bytes, a trailing group `xx==` becomes 1 byte
and `xxx=` becomes 2 bytes; any other shape or character is invalid. -/
def base64StdDecodeGroups : List Nat → Option (List Nat)
  | [] => some []
  | a :: b :: c :: d :: rest =>
    match b64CharValue a, b64CharValue b with
    | some va, some vb =>
      if c = 61 then
        if d = 61 ∧ rest = [] then some [va * 4 + vb / 16] else none
      else
        match b64CharValue c with
        | some vc =>
          if d = 61 then
            if rest = [] then some [va * 4 + vb / 16, (vb % 16) * 16 + vc / 4]
            else none
          else
            match b64CharValue d with
            | some vd =>
              (base64StdDecodeGroups rest).map
                (fun tl => (va * 4 + vb / 16) :: ((vb % 16) * 16 + vc / 4) ::
                           ((vc % 4) * 64 + vd) :: tl)
            | none => none
        | none => none
    | _, _ => none
  | _ => none

/-- Modelled from the spec: `Base64::decode` returns the decoded bytes, or
the empty string when the input is not valid padded base64. -/
def base64StdDecode (s : List Nat) : List Nat :=
  (base64StdDecodeGroups s).getD []

/-- Step 1 of `Base64UrlDecode` (jwt.cc lines 104-112): when the length is
divisible by 4, inspect `input[len - 1]` and strip at most two trailing
padding bytes, re-inspecting `input[len - 2]` after the first `pop_back`.
For the empty input this inspects index `-1`, an out-of-bounds read
(`none`). -/
def base64UrlStripPadding (input : List Nat) : Option (List Nat) :=
  let len : Int := input.length
  if input.length % 4 = 0 then
    match cppIndex input (len - 1) with
    | none => none
    | some c1 =>
      if c1 = 61 then
        let input1 := input.dropLast
        match cppIndex input1 (len - 2) with
        | none => none
        | some c2 =>
          if c2 = 61 then some input1.dropLast else some input1
      else some input
  else some input

/-- Model of `Base64UrlDecode` (jwt.cc lines 101-140): strip padding, reject
non-base64url bytes, translate `-`/`_` to `+`/`/`, re-pad to a multiple of
4 (remainder 1 is invalid) and run standard base64 decode.  `none` marks an
execution whose C++ behavior is undefined (an out-of-bounds read). -/
def base64UrlDecode (input : List Nat) : Option (List Nat) :=
  match base64UrlStripPadding input with
  | none => none
  | some s =>
    match findNotBase64UrlChar s with
    | none => none
    | some true => some []
    | some false =>
      let s2 := s.map (fun b => if b = 45 then 43 else if b = 95 then 47 else b)
      match s2.length % 4 with
      | 0 => some (base64StdDecode s2)
      | 2 => some (base64StdDecode (s2 ++ [61, 61]))
      | 3 => some (base64StdDecode (s2 ++ [61]))
      | _ => some []

/-- Model of `google::protobuf::Value`: one JSON value as protobuf represents it
(a oneof over null, number, string, bool, struct and list). -/
inductive PValue where
  | nullV
  | numberV (n : Int)
  | stringV (s : List Nat)
  | boolV (b : Bool)
  | structV (fields : List (List Nat × PValue))
  | listV (vs : List PValue)

/-- The field map of a `google::protobuf::Struct` (`ProtobufMapType`). -/
def PStruct := List (List Nat × PValue)

/-- Model of `fields.find(key)` on a protobuf struct field map. -/
def structFind (fields : PStruct) (key : List Nat) : Option PValue :=
  match fields with
  | [] => none
  | (k, v) :: rest => if k = key then some v else structFind rest key

/-- Model of `value.list_value().values()`: protobuf oneof accessors return the
default (empty) `ListValue` when the value's kind is not `kListValue`. -/
def protoListValues : PValue → List PValue
  | PValue.listV vs => vs
  | _ => []

/-- Model of `getProtoMapValue<std::string>` (jwt.cc lines 286-296): `nullopt`
unless the field exists and its kind is `kStringValue`. -/
def getProtoMapValueString (fields : PStruct) (key : List Nat) :
    Option (List Nat) :=
  match structFind fields key with
  | some (PValue.stringV s) => some s
  | _ => none

/-- Model of `getProtoMapValue<uint64_t>` (jwt.cc lines 298-308): `nullopt` unless
the field exists with kind `kNumberValue`; the double is converted to
`uint64_t` (modelled as reduction mod 2^64 of the integral value). -/
def getProtoMapValueU64 (fields : PStruct) (key : List Nat) : Option Nat :=
  match structFind fields key with
  | some (PValue.numberV n) => some (n % (2 ^ 64 : Int)).toNat
  | _ => none

/-- Inner loop of `getProtoListValue<std::string>` (jwt.cc lines 254-260):
collect the string values, `nullopt` at the first non-string element. -/
def collectStringValues : List PValue → Option (List (List Nat))
  | [] => some []
  | PValue.stringV s :: rest => (collectStringValues rest).map (s :: ·)
  | _ => none

/-- Model of `getProtoListValue<std::string>` (jwt.cc lines 247-262): `nullopt` when
the field is absent; otherwise iterate `list_value().values()` (empty for a
non-list kind) and fail on any non-string element. -/
def getProtoListValueString (fields : PStruct) (key : List Nat) :
    Option (List (List Nat)) :=
  match structFind fields key with
  | none => none
  | some v => collectStringValues (protoListValues v)

/-- Inner loop of `getProtoListValue<google::protobuf::Struct>` (jwt.cc
lines 272-277): collect the struct values, `nullopt` at the first
non-struct element. -/
def collectStructValues : List PValue → Option (List PStruct)
  | [] => some []
  | PValue.structV f :: rest => (collectStructValues rest).map (f :: ·)
  | _ => none

/-- Model of `getProtoListValue<google::protobuf::Struct>` (jwt.cc lines 264-279). -/
def getProtoListValueStruct (fields : PStruct) (key : List Nat) :
    Option (List PStruct) :=
  match structFind fields key with
  | none => none
  | some v => collectStructValues (protoListValues v)

/-- The `aud` extraction of `Jwt::Jwt` (jwt.cc lines 389-394, HEAD side of
the conflict): try `getProtoListValue<std::string>`; only when that yields
`nullopt` fall back to reading `aud` as a scalar string; otherwise the
audience stays empty. -/
def audFromPayload (payloadFields : PStruct) : List (List Nat) :=
  match getProtoListValueString payloadFields (str "aud") with
  | some l => l
  | none =>
    match getProtoMapValueString payloadFields (str "aud") with
    | some s => [s]
    | none => []

/-- Modelled from the spec: `StringUtil::splitToken(jwt, ".")` (Envoy
common utility, not under src/) splits on `.` and drops empty segments. -/
def splitTokenAux (sep : Nat) : List Nat → List Nat → List (List Nat)
  | [], cur => if cur = [] then [] else [cur.reverse]
  | b :: rest, cur =>
    if b = sep then
      if cur = [] then splitTokenAux sep rest []
      else cur.reverse :: splitTokenAux sep rest []
    else splitTokenAux sep rest (b :: cur)

/-- Split a byte string on a separator byte, dropping empty segments. -/
def splitToken (s : List Nat) (sep : Nat) : List (List Nat) :=
  splitTokenAux sep s []

/-- The fields of a parsed `Jwt` object (jwt.h / jwt.cc), with the C++
member defaults. -/
structure JwtModel where
  status : Status := Status.OK
  headerStrBase64Url : List Nat := []
  headerStr : List Nat := []
  payloadStrBase64Url : List Nat := []
  payloadStr : List Nat := []
  alg : List Nat := []
  kid : List Nat := []
  iss : List Nat := []
  sub : List Nat := []
  exp : Nat := 0
  aud : List (List Nat) := []
  signature : List Nat := []

/-- Payload and signature stages of `Jwt::Jwt` (jwt.cc lines 367-424):
decode and JSON-parse the payload segment, read the claims (`aud` via the
HEAD-side logic of lines 389-394), then decode the signature segment. -/
def mkJwtPayload (parseJson : List Nat → Option PStruct)
    (s0 hstr a k s1 s2 : List Nat) : Option JwtModel :=
  match base64UrlDecode s1 with
  | none => none
  | some pstr =>
    match parseJson pstr with
    | none =>
      some { status := Status.JWT_PAYLOAD_PARSE_ERROR,
             headerStrBase64Url := s0, headerStr := hstr, alg := a,
             kid := k, payloadStrBase64Url := s1, payloadStr := pstr }
    | some payloadFields =>
      match base64UrlDecode s2 with
      | none => none
      | some sig =>
        some
          { status := if sig = [] then Status.JWT_SIGNATURE_PARSE_ERROR
                      else Status.OK,
            headerStrBase64Url := s0, headerStr := hstr, alg := a, kid := k,
            payloadStrBase64Url := s1, payloadStr := pstr,
            iss := (getProtoMapValueString payloadFields (str "iss")).getD [],
            sub := (getProtoMapValueString payloadFields (str "sub")).getD [],
            exp := (getProtoMapValueU64 payloadFields (str "exp")).getD 0,
            aud := audFromPayload payloadFields,
            signature := sig }

/-- Model of `Jwt::Jwt` (jwt.cc lines 312-425, HEAD side of the conflict at lines
389-394).  `parseJson` stands for `google::protobuf::util::
JsonStringToMessage` (third-party, passed in as a parameter); `none` from
it is a failed parse.  A result of `none` from `mkJwt` itself marks an
execution whose C++ behavior is undefined (an out-of-bounds read inside
`Base64UrlDecode`). -/
def mkJwt (parseJson : List Nat → Option PStruct) (jwt : List Nat) :
    Option JwtModel :=
  if jwt.count 46 ≠ 2 then some { status := Status.JWT_BAD_FORMAT }
  else
    let parts := splitToken jwt 46
    if parts.length ≠ 3 then some { status := Status.JWT_BAD_FORMAT }
    else
      let s0 := parts.getD 0 []
      let s1 := parts.getD 1 []
      let s2 := parts.getD 2 []
      match base64UrlDecode s0 with
      | none => none
      | some hstr =>
        match parseJson hstr with
        | none =>
          some { status := Status.JWT_HEADER_PARSE_ERROR,
                 headerStrBase64Url := s0, headerStr := hstr }
        | some headerFields =>
          match structFind headerFields (str "alg") with
          | none =>
            some { status := Status.JWT_HEADER_NO_ALG,
                   headerStrBase64Url := s0, headerStr := hstr }
          | some algValue =>
            match algValue with
            | PValue.stringV a =>
              if a ≠ str "RS256" ∧ a ≠ str "ES256" ∧ a ≠ str "RS384" ∧
                 a ≠ str "RS512" then
                some { status := Status.ALG_NOT_IMPLEMENTED,
                       headerStrBase64Url := s0, headerStr := hstr, alg := a }
              else
                match structFind headerFields (str "kid") with
                | some (PValue.stringV k) =>
                  mkJwtPayload parseJson s0 hstr a k s1 s2
                | some _ =>
                  some { status := Status.JWT_HEADER_BAD_KID,
                         headerStrBase64Url := s0, headerStr := hstr,
                         alg := a }
                | none => mkJwtPayload parseJson s0 hstr a [] s1 s2
            | _ =>
              some { status := Status.JWT_HEADER_BAD_ALG,
                     headerStrBase64Url := s0, headerStr := hstr }

/-- A big-endian byte string read as a natural number (`BN_bin2bn`). -/
def natFromBytes (bytes : List Nat) : Nat :=
  bytes.foldl (fun acc b => acc * 256 + b) 0

/-- One `Pubkey` entry of a `Pubkeys` set (jwt.h / jwt.cc): declared
`kid`/`alg` with their "specified" flags, the `kty` string, the PEM-source
flag, and the parsed key material (RSA modulus/exponent or EC affine
coordinates) standing for the BoringSSL key handles. -/
structure Pubkey where
  kid : List Nat := []
  kidSpecified : Bool := false
  alg : List Nat := []
  algSpecified : Bool := false
  kty : List Nat := []
  pemFormat : Bool := false
  rsaKey : Option (Nat × Nat) := none
  ecKey : Option (Nat × Nat) := none

/-- A `Pubkeys` set: the ordered key entries and the terminal status. -/
structure PubkeysModel where
  keys : List Pubkey
  status : Status

/-- The three digests `Verifier::Verify` can select (jwt.cc 515-523). -/
inductive MD where
  | sha256
  | sha384
  | sha512

deriving instance DecidableEq, Repr for MD

/-- The digest selection of `Verifier::Verify` (jwt.cc lines 515-523):
`RS384` gives SHA-384, `RS512` gives SHA-512, anything else SHA-256. -/
def mdForAlg (alg : List Nat) : MD :=
  if alg = str "RS384" then MD.sha384
  else if alg = str "RS512" then MD.sha512
  else MD.sha256

/-- Model of `signed_data` (jwt.cc lines 493-494): the raw base64url header segment,
a literal dot, and the raw base64url payload segment. -/
def signedData (jwt : JwtModel) : List Nat :=
  jwt.headerStrBase64Url ++ [46] ++ jwt.payloadStrBase64Url

/-- Oracle for `EVP_DigestVerify{Init,Update,Final}` on the entry's RSA
key handle (jwt.cc lines 427-448): RSA-PKCS1v1.5 verification of the
signature over the signed data under the given digest. -/
def RsaVerifyOracle := Pubkey → MD → List Nat → List Nat → Bool

/-- Oracle for `ECDSA_do_verify` on the entry's EC key handle (jwt.cc line
470): ECDSA check of `(r, s)` against a 32-byte digest. -/
def EcdsaVerifyOracle := Pubkey → List Nat → Nat → Nat → Bool

/-- Oracle for `SHA256` (jwt.cc line 460). -/
def Sha256Oracle := List Nat → List Nat

/-- Model of `Verifier::VerifySignatureRSA` (jwt.cc lines 427-448): delegate to the
EVP digest-verify primitive. -/
def verifySignatureRSA (rsaV : RsaVerifyOracle) (key : Pubkey) (md : MD)
    (signature signedData : List Nat) : Bool :=
  rsaV key md signature signedData

/-- Model of `Verifier::VerifySignatureEC` (jwt.cc lines 450-472): a signature whose
length is not exactly 64 bytes fails immediately; otherwise the two 32-byte
halves are read big-endian as `r` and `s` (`BN_bin2bn`) and checked by
ECDSA against the SHA-256 digest of the signed data.  (The
`ECDSA_SIG_new` allocation-failure path is not modelled; for a non-64-byte
signature the function returns before reaching it.) -/
def verifySignatureEC (ecV : EcdsaVerifyOracle) (sha : Sha256Oracle)
    (key : Pubkey) (signature signedData : List Nat) : Bool :=
  if signature.length ≠ 64 then false
  else
    ecV key (sha signedData) (natFromBytes (signature.take 32))
      (natFromBytes (signature.drop 32))

/-- The two `continue` conditions of the key loop (jwt.cc lines 500-507):
skip when the token's kid is non-empty, the entry declares a kid and they
differ; or when the entry declares an alg different from the token's. -/
def skipKey (jwt : JwtModel) (k : Pubkey) : Bool :=
  decide
    ((jwt.kid ≠ ([] : List Nat) ∧ k.kidSpecified = true ∧ k.kid ≠ jwt.kid) ∨
      (k.algSpecified = true ∧ k.alg ≠ jwt.alg))

/-- The per-entry check of the key loop (jwt.cc lines 510-529): an EC-typed
entry whose ECDSA check succeeds verifies; otherwise a PEM-sourced or
RSA-typed entry verifies when the RSA check under `mdForAlg` succeeds. -/
def checkKey (rsaV : RsaVerifyOracle) (ecV : EcdsaVerifyOracle)
    (sha : Sha256Oracle) (jwt : JwtModel) (k : Pubkey) : Bool :=
  if k.kty = str "EC" ∧
      verifySignatureEC ecV sha k jwt.signature (signedData jwt) = true then
    true
  else if k.pemFormat = true ∨ k.kty = str "RSA" then
    verifySignatureRSA rsaV k (mdForAlg jwt.alg) jwt.signature (signedData jwt)
  else false

/-- The key loop of `Verifier::Verify` (jwt.cc lines 495-537), with
`matched` the running `kid_alg_matched` flag: skipped entries leave the
flag alone; a successful check returns true at once (the verifier status
stays OK); when the list is exhausted the status is `JWT_INVALID_SIGNATURE`
if any entry matched and `KID_ALG_UNMATCH` otherwise. -/
def verifyLoop (rsaV : RsaVerifyOracle) (ecV : EcdsaVerifyOracle)
    (sha : Sha256Oracle) (jwt : JwtModel) :
    List Pubkey → Bool → Bool × Status
  | [], matched =>
    (false, if matched then Status.JWT_INVALID_SIGNATURE
            else Status.KID_ALG_UNMATCH)
  | k :: rest, matched =>
    if skipKey jwt k then verifyLoop rsaV ecV sha jwt rest matched
    else if checkKey rsaV ecV sha jwt k then (true, Status.OK)
    else verifyLoop rsaV ecV sha jwt rest true

/-- Model of `Verifier::Verify` (jwt.cc lines 480-538): inherit a non-OK status from
the token or the key set, otherwise run the key loop over `signed_data`. -/
def verify (rsaV : RsaVerifyOracle) (ecV : EcdsaVerifyOracle)
    (sha : Sha256Oracle) (jwt : JwtModel) (pubkeys : PubkeysModel) :
    Bool × Status :=
  if jwt.status ≠ Status.OK then (false, jwt.status)
  else if pubkeys.status ≠ Status.OK then (false, pubkeys.status)
  else verifyLoop rsaV ecV sha jwt pubkeys.keys false

/-- Model of `EvpPkeyGetter::BigNumFromBase64UrlString` (jwt.cc lines 216-223):
base64url-decode and feed to `BN_bin2bn`; an empty decode result yields a
null pointer (inner `none`).  The outer `none` marks undefined behavior
inside `Base64UrlDecode`. -/
def bigNumFromBase64UrlString (s : List Nat) : Option (Option Nat) :=
  match base64UrlDecode s with
  | none => none
  | some d => if d = [] then some none else some (some (natFromBytes d))

/-- The effect of one `ExtractPubkeyFromJwk*` call on the `Pubkeys` object:
the C++ return value, the entry appended to `keys_` (if any), and the
status passed to `UpdateStatus` (if any). -/
structure ExtractResult where
  ret : Bool
  newKey : Option Pubkey
  statusUpd : Option Status

/-- Model of `Pubkeys::ExtractPubkeyFromJwkRSA` (jwt.cc lines 639-687): optional
`kid`/`alg` (alg restricted to RS256/RS384/RS512, a violation skips the
entry), required string fields `n` and `e`; `EvpPkeyFromJwkRSA` succeeds
iff both decode to non-empty byte strings, otherwise
`JWK_RSA_PUBKEY_PARSE_ERROR` is recorded and no entry is appended. -/
def extractPubkeyFromJwkRSA (jwkField : PStruct) : Option ExtractResult :=
  let kidStep : Option (List Nat × Bool) :=
    match structFind jwkField (str "kid") with
    | none => some ([], false)
    | some _ =>
      match getProtoMapValueString jwkField (str "kid") with
      | none => none
      | some k => some (k, true)
  match kidStep with
  | none => some ⟨false, none, none⟩
  | some (kidVal, kidSpec) =>
    let algStep : Option (List Nat × Bool) :=
      match structFind jwkField (str "alg") with
      | none => some ([], false)
      | some _ =>
        match getProtoMapValueString jwkField (str "alg") with
        | none => none
        | some a =>
          if a = str "RS256" ∨ a = str "RS384" ∨ a = str "RS512" then
            some (a, true)
          else none
    match algStep with
    | none => some ⟨false, none, none⟩
    | some (algVal, algSpec) =>
      let ktyVal := (getProtoMapValueString jwkField (str "kty")).getD []
      match getProtoMapValueString jwkField (str "n"),
            getProtoMapValueString jwkField (str "e") with
      | some nStr, some eStr =>
        (match bigNumFromBase64UrlString nStr,
               bigNumFromBase64UrlString eStr with
         | some (some nNum), some (some eNum) =>
           some ⟨true,
                 some { kid := kidVal, kidSpecified := kidSpec, alg := algVal,
                        algSpecified := algSpec, kty := ktyVal,
                        rsaKey := some (nNum, eNum) },
                 none⟩
         | some _, some _ =>
           some ⟨true, none, some Status.JWK_RSA_PUBKEY_PARSE_ERROR⟩
         | _, _ => none)
      | _, _ => some ⟨false, none, none⟩

/-- Model of `Pubkeys::ExtractPubkeyFromJwkEC` (jwt.cc lines 689-732): optional
`kid`/`alg` (alg must equal ES256), required string fields `x` and `y`;
`EcKeyFromJwkEC` fails with `JWK_EC_PUBKEY_PARSE_ERROR` when either
coordinate decodes empty or when
`EC_KEY_set_public_key_affine_coordinates` (the `ecCoordsValid` oracle,
standing for BoringSSL's P-256 point validation) rejects the pair. -/
def extractPubkeyFromJwkEC (ecCoordsValid : Nat → Nat → Bool)
    (jwkField : PStruct) : Option ExtractResult :=
  let kidStep : Option (List Nat × Bool) :=
    match structFind jwkField (str "kid") with
    | none => some ([], false)
    | some _ =>
      match getProtoMapValueString jwkField (str "kid") with
      | none => none
      | some k => some (k, true)
  match kidStep with
  | none => some ⟨false, none, none⟩
  | some (kidVal, kidSpec) =>
    let algStep : Option (List Nat × Bool) :=
      match structFind jwkField (str "alg") with
      | none => some ([], false)
      | some _ =>
        match getProtoMapValueString jwkField (str "alg") with
        | none => none
        | some a => if a = str "ES256" then some (a, true) else none
    match algStep with
    | none => some ⟨false, none, none⟩
    | some (algVal, algSpec) =>
      match getProtoMapValueString jwkField (str "kty") with
      | none => some ⟨false, none, none⟩
      | some ktyVal =>
        match getProtoMapValueString jwkField (str "x"),
              getProtoMapValueString jwkField (str "y") with
        | some xStr, some yStr =>
          (match bigNumFromBase64UrlString xStr,
                 bigNumFromBase64UrlString yStr with
           | some (some xNum), some (some yNum) =>
             if ecCoordsValid xNum yNum then
               some ⟨true,
                     some { kid := kidVal, kidSpecified := kidSpec,
                            alg := algVal, algSpecified := algSpec,
                            kty := ktyVal, ecKey := some (xNum, yNum) },
                     none⟩
             else some ⟨true, none, some Status.JWK_EC_PUBKEY_PARSE_ERROR⟩
           | some _, some _ =>
             some ⟨true, none, some Status.JWK_EC_PUBKEY_PARSE_ERROR⟩
           | _, _ => none)
        | _, _ => some ⟨false, none, none⟩

/-- Model of `Pubkeys::ExtractPubkeyFromJwk` (jwt.cc lines 619-637): dispatch on the
required string field `kty`; anything other than `"EC"`/`"RSA"` (or a
missing/non-string `kty`) skips the entry. -/
def extractPubkeyFromJwk (ecCoordsValid : Nat → Nat → Bool)
    (jwkField : PStruct) : Option ExtractResult :=
  match getProtoMapValueString jwkField (str "kty") with
  | none => some ⟨false, none, none⟩
  | some kty =>
    if kty = str "EC" then extractPubkeyFromJwkEC ecCoordsValid jwkField
    else if kty = str "RSA" then extractPubkeyFromJwkRSA jwkField
    else some ⟨false, none, none⟩

/-- The per-element loop of `Pubkeys::CreateFromJwksCore` (jwt.cc lines
608-612): accumulate appended entries and fold every recorded error into
the set's status via `updateStatus` (first error sticks). -/
def processJwkEntries (ecCoordsValid : Nat → Nat → Bool) :
    List PStruct → List Pubkey → Status → Option (List Pubkey × Status)
  | [], ks, st => some (ks, st)
  | f :: rest, ks, st =>
    match extractPubkeyFromJwk ecCoordsValid f with
    | none => none
    | some r =>
      processJwkEntries ecCoordsValid rest (ks ++ r.newKey.toList)
        (match r.statusUpd with
         | some e => updateStatus st e
         | none => st)

/-- Model of `Pubkeys::CreateFromJwksCore` (jwt.cc lines 570-617, HEAD side of the
conflict at lines 591-593) applied to an already JSON-parsed document (the
textual `JsonStringToMessage` step, whose failure gives JWK_PARSE_ERROR, is
prior to this function): a missing `keys` field gives `JWK_NO_KEYS`; a
`nullopt` from `getProtoListValue<Struct>` gives `JWK_BAD_KEYS`; otherwise
process the elements and record `JWK_NO_VALID_PUBKEY` when no entry was
appended. -/
def createFromJwksStruct (ecCoordsValid : Nat → Nat → Bool)
    (jwksFields : PStruct) : Option PubkeysModel :=
  match structFind jwksFields (str "keys") with
  | none => some ⟨[], Status.JWK_NO_KEYS⟩
  | some _ =>
    match getProtoListValueStruct jwksFields (str "keys") with
    | none => some ⟨[], Status.JWK_BAD_KEYS⟩
    | some entries =>
      match processJwkEntries ecCoordsValid entries [] Status.OK with
      | none => none
      | some (ks, st) =>
        if ks.length = 0 then
          some ⟨ks, updateStatus st Status.JWK_NO_VALID_PUBKEY⟩
        else some ⟨ks, st⟩

deriving instance DecidableEq for Pubkey

deriving instance DecidableEq for PubkeysModel

/-! Concrete instances used to evaluate the model on the inputs named by
the spec's examples and by the counterexamples below. -/

/-- The bytes of the JSON text produced by base64url-decoding
`eyJhbGciOiJub25lIn0`, i.e. a header whose only field is `alg` with value
`none` (ASCII codes; 123/125 are the braces, 34 the quote). -/
def hdrNoneBytes : List Nat :=
  [123, 34, 97, 108, 103, 34, 58, 34, 110, 111, 110, 101, 34, 125]

/-- The protobuf struct for that header. -/
def hdrNoneStruct : PStruct := [(str "alg", PValue.stringV (str "none"))]

/-- A JSON-parser stand-in that parses exactly the alg-none header. -/
def pNone : List Nat → Option PStruct := fun s =>
  if s = hdrNoneBytes then some hdrNoneStruct else none

/-- A compact token whose header segment decodes to the alg-none header. -/
def tNone : List Nat := str "eyJhbGciOiJub25lIn0.e30.QUFBQQ"

/-- The bytes of the JSON header text with `alg` equal to `RS256`
(decoded from `eyJhbGciOiJSUzI1NiJ9`). -/
def hdrRS256Bytes : List Nat :=
  [123, 34, 97, 108, 103, 34, 58, 34, 82, 83, 50, 53, 54, 34, 125]

/-- The bytes of the JSON payload text whose `aud` field is the array
`["a", 5]` (decoded from `eyJhdWQiOlsiYSIsNV19`). -/
def pldMixedBytes : List Nat :=
  [123, 34, 97, 117, 100, 34, 58, 91, 34, 97, 34, 44, 53, 93, 125]

/-- A JSON-parser stand-in for the RS256 header and the mixed-aud
payload. -/
def pMixed : List Nat → Option PStruct := fun s =>
  if s = hdrRS256Bytes then some [(str "alg", PValue.stringV (str "RS256"))]
  else if s = pldMixedBytes then
    some [(str "aud",
           PValue.listV [PValue.stringV (str "a"), PValue.numberV 5])]
  else none

/-- A compact token carrying the RS256 header, the mixed-aud payload and a
signature segment decoding to the three bytes `ABC`. -/
def tMixed : List Nat := str "eyJhbGciOiJSUzI1NiJ9.eyJhdWQiOlsiYSIsNV19.QUJD"

/-- A fully valid RSA JWK entry: `n` decodes to three bytes, `e` to one. -/
def validRsaEntry : PStruct :=
  [(str "kty", PValue.stringV (str "RSA")),
   (str "n", PValue.stringV (str "QUFB")),
   (str "e", PValue.stringV (str "QQ"))]

/-- A malformed RSA JWK entry: `kty` is `RSA` but `n` is missing. -/
def missingNEntry : PStruct :=
  [(str "kty", PValue.stringV (str "RSA"))]

/-- An RSA JWK entry whose `n` is present but not base64url (`!!!!`). -/
def badNEntry : PStruct :=
  [(str "kty", PValue.stringV (str "RSA")),
   (str "n", PValue.stringV (str "!!!!")),
   (str "e", PValue.stringV (str "QQ"))]

/-- The spec's two-entry JWKS example: one entry missing `n`, one valid. -/
def specJwksExample : PStruct :=
  [(str "keys",
    PValue.listV [PValue.structV missingNEntry, PValue.structV validRsaEntry])]

/-- A two-entry JWKS whose first entry has an undecodable `n` and whose
second entry is valid. -/
def cexJwksBadN : PStruct :=
  [(str "keys",
    PValue.listV [PValue.structV badNEntry, PValue.structV validRsaEntry])]

/-- A JWKS object whose `keys` field is a string, not an array. -/
def cexJwksKeysString : PStruct := [(str "keys", PValue.stringV (str "foo"))]

/-- A JWKS object with no `keys` field. -/
def jwksNoKeys : PStruct := []

/-- A JWKS object whose `keys` array contains a non-object element. -/
def jwksNonObjectElement : PStruct :=
  [(str "keys", PValue.listV [PValue.numberV 1])]

/-- An EC-coordinate oracle accepting every point. -/
def ecAllValid : Nat → Nat → Bool := fun _ _ => true

/-- An RSA oracle rejecting every signature. -/
def rsaFalseOracle : RsaVerifyOracle := fun _ _ _ _ => false

/-- An ECDSA oracle rejecting every signature. -/
def ecdsaFalseOracle : EcdsaVerifyOracle := fun _ _ _ _ => false

/-- A SHA-256 stand-in (the identity on byte strings). -/
def shaIdOracle : Sha256Oracle := fun d => d

/-- A status-OK token with algorithm RS256 and a 1-byte signature. -/
def jwtOkExample : JwtModel :=
  { status := Status.OK, alg := str "RS256",
    headerStrBase64Url := str "QQ", payloadStrBase64Url := str "Qg",
    signature := [1] }

/-- A status-OK token with algorithm ES256 and a 1-byte signature. -/
def jwtEsExample : JwtModel :=
  { status := Status.OK, alg := str "ES256",
    headerStrBase64Url := str "QQ", payloadStrBase64Url := str "Qg",
    signature := [1] }

/-- An RSA key entry declaring neither kid nor alg. -/
def rsaKeyExample : Pubkey := { kty := str "RSA", rsaKey := some (4276545, 65) }

/-- An EC key entry declaring neither kid nor alg. -/
def ecKeyExample : Pubkey := { kty := str "EC", ecKey := some (1, 2) }

/-- A status-OK key set holding the RSA example entry. -/
def pubkeysOkExample : PubkeysModel := ⟨[rsaKeyExample], Status.OK⟩

/-! Helper lemmas about the key loop of `Verifier::Verify`. -/

theorem verifyLoop_fst_any (rsaV : RsaVerifyOracle) (ecV : EcdsaVerifyOracle)
    (sha : Sha256Oracle) (jwt : JwtModel) :
    ∀ (keys : List Pubkey) (m : Bool),
      (verifyLoop rsaV ecV sha jwt keys m).1 =
        keys.any (fun k => !skipKey jwt k && checkKey rsaV ecV sha jwt k) := by
  intro keys
  induction keys with
  | nil => intro m; simp [verifyLoop]
  | cons k rest ih =>
    intro m
    cases hs : skipKey jwt k with
    | true => simp [verifyLoop, hs, ih]
    | false =>
      cases hc : checkKey rsaV ecV sha jwt k with
      | true => simp [verifyLoop, hs, hc]
      | false => simp [verifyLoop, hs, hc, ih]

theorem verifyLoop_snd_of_false (rsaV : RsaVerifyOracle)
    (ecV : EcdsaVerifyOracle) (sha : Sha256Oracle) (jwt : JwtModel) :
    ∀ (keys : List Pubkey) (m : Bool),
      (verifyLoop rsaV ecV sha jwt keys m).1 = false →
      (verifyLoop rsaV ecV sha jwt keys m).2 =
        if m || keys.any (fun k => !skipKey jwt k) then
          Status.JWT_INVALID_SIGNATURE
        else Status.KID_ALG_UNMATCH := by
  intro keys
  induction keys with
  | nil => intro m _; simp [verifyLoop]
  | cons k rest ih =>
    intro m h
    cases hs : skipKey jwt k with
    | true =>
      simp only [verifyLoop, hs, if_true] at h ⊢
      rw [ih m h]
      simp [hs]
    | false =>
      cases hc : checkKey rsaV ecV sha jwt k with
      | true => simp [verifyLoop, hs, hc] at h
      | false =>
        simp only [verifyLoop, hs, hc] at h ⊢
        simp only [Bool.false_eq_true, if_false] at h ⊢
        rw [ih true h]
        simp [hs]

theorem verifyLoop_first_success (rsaV : RsaVerifyOracle)
    (ecV : EcdsaVerifyOracle) (sha : Sha256Oracle) (jwt : JwtModel) :
    ∀ (l1 : List Pubkey) (k : Pubkey) (l2 : List Pubkey) (m : Bool),
      (∀ k' ∈ l1,
        skipKey jwt k' = true ∨ checkKey rsaV ecV sha jwt k' = false) →
      skipKey jwt k = false → checkKey rsaV ecV sha jwt k = true →
      verifyLoop rsaV ecV sha jwt (l1 ++ k :: l2) m = (true, Status.OK) := by
  intro l1
  induction l1 with
  | nil => intro k l2 m _ hsk hck; simp [verifyLoop, hsk, hck]
  | cons a l ih =>
    intro k l2 m hall hsk hck
    have hrest : ∀ k' ∈ l,
        skipKey jwt k' = true ∨ checkKey rsaV ecV sha jwt k' = false :=
      fun x hx => hall x (List.mem_cons_of_mem a hx)
    cases hs2 : skipKey jwt a with
    | true =>
      simp only [List.cons_append, verifyLoop, hs2, if_true]
      exact ih k l2 m hrest hsk hck
    | false =>
      rcases hall a (List.mem_cons_self a l) with ha | ha
      · rw [hs2] at ha; exact absurd ha (by simp)
      · simp only [List.cons_append, verifyLoop, hs2, ha]
        simp only [Bool.false_eq_true, if_false]
        exact ih k l2 true hrest hsk hck

theorem verifySignatureEC_congr (ec1 ec2 : EcdsaVerifyOracle)
    (sha : Sha256Oracle) (sd : List Nat)
    (hec : ∀ k r s, ec1 k (sha sd) r s = ec2 k (sha sd) r s) :
    ∀ (k : Pubkey) (sig : List Nat),
      verifySignatureEC ec1 sha k sig sd = verifySignatureEC ec2 sha k sig sd := by
  intro k sig
  unfold verifySignatureEC
  split
  · rfl
  · exact hec k _ _

theorem checkKey_congr (rsa1 rsa2 : RsaVerifyOracle)
    (ec1 ec2 : EcdsaVerifyOracle) (sha : Sha256Oracle) (jwt : JwtModel)
    (hrsa : ∀ k s, rsa1 k (mdForAlg jwt.alg) s (signedData jwt) =
      rsa2 k (mdForAlg jwt.alg) s (signedData jwt))
    (hec : ∀ k r s, ec1 k (sha (signedData jwt)) r s =
      ec2 k (sha (signedData jwt)) r s) :
    ∀ k, checkKey rsa1 ec1 sha jwt k = checkKey rsa2 ec2 sha jwt k := by
  intro k
  have hECeq :=
    verifySignatureEC_congr ec1 ec2 sha (signedData jwt) hec k jwt.signature
  have hRSAeq : verifySignatureRSA rsa1 k (mdForAlg jwt.alg) jwt.signature
      (signedData jwt) =
      verifySignatureRSA rsa2 k (mdForAlg jwt.alg) jwt.signature
        (signedData jwt) := hrsa k jwt.signature
  simp only [checkKey, hECeq, hRSAeq]

theorem verifyLoop_congr (rsa1 rsa2 : RsaVerifyOracle)
    (ec1 ec2 : EcdsaVerifyOracle) (sha : Sha256Oracle) (jwt : JwtModel)
    (hck : ∀ k, checkKey rsa1 ec1 sha jwt k = checkKey rsa2 ec2 sha jwt k) :
    ∀ (keys : List Pubkey) (m : Bool),
      verifyLoop rsa1 ec1 sha jwt keys m = verifyLoop rsa2 ec2 sha jwt keys m := by
  intro keys
  induction keys with
  | nil => intro m; rfl
  | cons k rest ih =>
    intro m
    simp only [verifyLoop, hck k, ih]

/-- C1.  For a status-OK token and status-OK key set, `Verifier::Verify`
consults the RSA primitive only at the digest selected from the token's
algorithm (`RS384` gives SHA-384, `RS512` gives SHA-512, anything else
SHA-256) and only over `signed_data`, which is exactly the raw base64url
header segment, a literal dot and the raw base64url payload segment; and it
consults the ECDSA primitive only at the SHA-256 digest of that same
`signed_data`.  Stated as: the outcome is unchanged when the primitives are
replaced by any others that agree at exactly those arguments. -/
theorem verify_signed_data_and_digest (rsa1 rsa2 : RsaVerifyOracle)
    (ec1 ec2 : EcdsaVerifyOracle) (sha : Sha256Oracle) (jwt : JwtModel)
    (pk : PubkeysModel) (hj : jwt.status = Status.OK)
    (hp : pk.status = Status.OK)
    (hrsa : ∀ k s, rsa1 k (mdForAlg jwt.alg) s (signedData jwt) =
      rsa2 k (mdForAlg jwt.alg) s (signedData jwt))
    (hec : ∀ k r s, ec1 k (sha (signedData jwt)) r s =
      ec2 k (sha (signedData jwt)) r s) :
    verify rsa1 ec1 sha jwt pk = verify rsa2 ec2 sha jwt pk ∧
    signedData jwt =
      jwt.headerStrBase64Url ++ [46] ++ jwt.payloadStrBase64Url ∧
    mdForAlg (str "RS384") = MD.sha384 ∧
    mdForAlg (str "RS512") = MD.sha512 ∧
    (∀ a, a ≠ str "RS384" → a ≠ str "RS512" → mdForAlg a = MD.sha256) := by
  refine ⟨?_, rfl, by decide, by decide, ?_⟩
  · simp only [verify, hj, hp]
    exact verifyLoop_congr rsa1 rsa2 ec1 ec2 sha jwt
      (checkKey_congr rsa1 rsa2 ec1 ec2 sha jwt hrsa hec) pk.keys false
  · intro a h1 h2
    simp [mdForAlg, h1, h2]

/-- Witness for C1 at concrete inputs (identical oracles on both sides). -/
theorem verify_signed_data_and_digest_witness :
    verify rsaFalseOracle ecdsaFalseOracle shaIdOracle jwtOkExample
        pubkeysOkExample =
      verify rsaFalseOracle ecdsaFalseOracle shaIdOracle jwtOkExample
        pubkeysOkExample ∧
    signedData jwtOkExample =
      jwtOkExample.headerStrBase64Url ++ [46] ++
        jwtOkExample.payloadStrBase64Url ∧
    mdForAlg (str "RS384") = MD.sha384 ∧
    mdForAlg (str "RS512") = MD.sha512 ∧
    (∀ a, a ≠ str "RS384" → a ≠ str "RS512" → mdForAlg a = MD.sha256) :=
  verify_signed_data_and_digest rsaFalseOracle rsaFalseOracle
    ecdsaFalseOracle ecdsaFalseOracle shaIdOracle jwtOkExample
    pubkeysOkExample rfl rfl (fun _ _ => rfl) (fun _ _ _ => rfl)

/-- C2.  For a status-OK token and status-OK key set: an entry is skipped
exactly when (the token's kid is non-empty and the entry declares a
different kid) or (the entry declares a different alg); the overall result
is true exactly when some non-skipped entry's signature check succeeds;
entries are tried in document order and the first success returns true
immediately (whatever follows it); and on failure the status is
JWT_INVALID_SIGNATURE when some entry was not skipped and KID_ALG_UNMATCH
when every entry was skipped. -/
theorem verify_key_selection (rsaV : RsaVerifyOracle)
    (ecV : EcdsaVerifyOracle) (sha : Sha256Oracle) (jwt : JwtModel)
    (pk : PubkeysModel) (hj : jwt.status = Status.OK)
    (hp : pk.status = Status.OK) :
    (∀ k, skipKey jwt k = true ↔
      ((jwt.kid ≠ ([] : List Nat) ∧ k.kidSpecified = true ∧
          k.kid ≠ jwt.kid) ∨
        (k.algSpecified = true ∧ k.alg ≠ jwt.alg))) ∧
    ((verify rsaV ecV sha jwt pk).1 =
      pk.keys.any (fun k => !skipKey jwt k && checkKey rsaV ecV sha jwt k)) ∧
    (∀ l1 k l2, pk.keys = l1 ++ k :: l2 →
      (∀ k' ∈ l1,
        skipKey jwt k' = true ∨ checkKey rsaV ecV sha jwt k' = false) →
      skipKey jwt k = false → checkKey rsaV ecV sha jwt k = true →
      verify rsaV ecV sha jwt pk = (true, Status.OK)) ∧
    ((verify rsaV ecV sha jwt pk).1 = false →
      (verify rsaV ecV sha jwt pk).2 =
        if pk.keys.any (fun k => !skipKey jwt k) then
          Status.JWT_INVALID_SIGNATURE
        else Status.KID_ALG_UNMATCH) := by
  have hv : verify rsaV ecV sha jwt pk =
      verifyLoop rsaV ecV sha jwt pk.keys false := by
    simp [verify, hj, hp]
  refine ⟨?_, ?_, ?_, ?_⟩
  · intro k
    simp [skipKey]
  · rw [hv]; exact verifyLoop_fst_any rsaV ecV sha jwt pk.keys false
  · intro l1 k l2 hsplit hall hsk hck
    rw [hv, hsplit]
    exact verifyLoop_first_success rsaV ecV sha jwt l1 k l2 false hall hsk hck
  · rw [hv]
    intro h
    rw [verifyLoop_snd_of_false rsaV ecV sha jwt pk.keys false h]
    simp

/-- Witness for C2 at concrete inputs. -/
theorem verify_key_selection_witness :
    (∀ k, skipKey jwtOkExample k = true ↔
      ((jwtOkExample.kid ≠ ([] : List Nat) ∧ k.kidSpecified = true ∧
          k.kid ≠ jwtOkExample.kid) ∨
        (k.algSpecified = true ∧ k.alg ≠ jwtOkExample.alg))) ∧
    ((verify rsaFalseOracle ecdsaFalseOracle shaIdOracle jwtOkExample
        pubkeysOkExample).1 =
      pubkeysOkExample.keys.any (fun k => !skipKey jwtOkExample k &&
        checkKey rsaFalseOracle ecdsaFalseOracle shaIdOracle jwtOkExample k)) ∧
    (∀ l1 k l2, pubkeysOkExample.keys = l1 ++ k :: l2 →
      (∀ k' ∈ l1, skipKey jwtOkExample k' = true ∨
        checkKey rsaFalseOracle ecdsaFalseOracle shaIdOracle jwtOkExample k' =
          false) →
      skipKey jwtOkExample k = false →
      checkKey rsaFalseOracle ecdsaFalseOracle shaIdOracle jwtOkExample k =
        true →
      verify rsaFalseOracle ecdsaFalseOracle shaIdOracle jwtOkExample
        pubkeysOkExample = (true, Status.OK)) ∧
    ((verify rsaFalseOracle ecdsaFalseOracle shaIdOracle jwtOkExample
        pubkeysOkExample).1 = false →
      (verify rsaFalseOracle ecdsaFalseOracle shaIdOracle jwtOkExample
        pubkeysOkExample).2 =
        if pubkeysOkExample.keys.any (fun k => !skipKey jwtOkExample k) then
          Status.JWT_INVALID_SIGNATURE
        else Status.KID_ALG_UNMATCH) :=
  verify_key_selection rsaFalseOracle ecdsaFalseOracle shaIdOracle
    jwtOkExample pubkeysOkExample rfl rfl

/-- C8.  On a status-OK ES256 token whose decoded signature is not 64
bytes: the EC check fails for any key without touching any status; a
matching EC entry falls through to the remaining entries (same overall
verification result), and if nothing verifies the final status is
JWT_INVALID_SIGNATURE (the entry itself counted as a candidate) — never a
parse-level status; and a 64-byte signature is interpreted as two 32-byte
big-endian integers r and s checked by ECDSA over the SHA-256 digest of the
signed data. -/
theorem verify_ec_signature_length (rsaV : RsaVerifyOracle)
    (ecV : EcdsaVerifyOracle) (sha : Sha256Oracle) (jwt : JwtModel)
    (k : Pubkey) (rest : List Pubkey) (hj : jwt.status = Status.OK)
    (halg : jwt.alg = str "ES256") (hlen : jwt.signature.length ≠ 64)
    (hkty : k.kty = str "EC") (hpem : k.pemFormat = false)
    (hskip : skipKey jwt k = false) :
    (∀ sd, verifySignatureEC ecV sha k jwt.signature sd = false) ∧
    ((verify rsaV ecV sha jwt ⟨k :: rest, Status.OK⟩).1 =
      (verify rsaV ecV sha jwt ⟨rest, Status.OK⟩).1) ∧
    ((verify rsaV ecV sha jwt ⟨k :: rest, Status.OK⟩).1 = false →
      (verify rsaV ecV sha jwt ⟨k :: rest, Status.OK⟩).2 =
        Status.JWT_INVALID_SIGNATURE) ∧
    (∀ (k' : Pubkey) (sig data : List Nat), sig.length = 64 →
      verifySignatureEC ecV sha k' sig data =
        ecV k' (sha data) (natFromBytes (sig.take 32))
          (natFromBytes (sig.drop 32))) := by
  have hecfail : ∀ sd, verifySignatureEC ecV sha k jwt.signature sd = false := by
    intro sd
    unfold verifySignatureEC
    exact if_pos hlen
  have hcheck : checkKey rsaV ecV sha jwt k = false := by
    unfold checkKey
    rw [if_neg, if_neg]
    · intro hor
      rcases hor with hpem2 | hr
      · rw [hpem] at hpem2; exact Bool.false_ne_true hpem2
      · rw [hkty] at hr
        have : str "EC" ≠ str "RSA" := by decide
        exact this hr
    · intro hand
      rcases hand with ⟨_, hecok⟩
      rw [hecfail (signedData jwt)] at hecok
      exact Bool.false_ne_true hecok
  have hloop : verifyLoop rsaV ecV sha jwt (k :: rest) false =
      verifyLoop rsaV ecV sha jwt rest true := by
    simp only [verifyLoop, hskip, hcheck]
    simp
  have hv1 : verify rsaV ecV sha jwt ⟨k :: rest, Status.OK⟩ =
      verifyLoop rsaV ecV sha jwt (k :: rest) false := by
    simp [verify, hj]
  have hv2 : verify rsaV ecV sha jwt ⟨rest, Status.OK⟩ =
      verifyLoop rsaV ecV sha jwt rest false := by
    simp [verify, hj]
  refine ⟨hecfail, ?_, ?_, ?_⟩
  · rw [hv1, hv2, hloop, verifyLoop_fst_any, verifyLoop_fst_any]
  · intro h
    rw [hv1, hloop] at h ⊢
    rw [verifyLoop_snd_of_false rsaV ecV sha jwt rest true h]
    simp
  · intro k' sig data h64
    unfold verifySignatureEC
    rw [if_neg (by rw [h64]; exact fun hc => hc rfl)]

/-- Witness for C8 at concrete inputs (1-byte signature, EC entry). -/
theorem verify_ec_signature_length_witness :
    (∀ sd, verifySignatureEC ecdsaFalseOracle shaIdOracle ecKeyExample
      jwtEsExample.signature sd = false) ∧
    ((verify rsaFalseOracle ecdsaFalseOracle shaIdOracle jwtEsExample
        ⟨ecKeyExample :: [], Status.OK⟩).1 =
      (verify rsaFalseOracle ecdsaFalseOracle shaIdOracle jwtEsExample
        ⟨[], Status.OK⟩).1) ∧
    ((verify rsaFalseOracle ecdsaFalseOracle shaIdOracle jwtEsExample
        ⟨ecKeyExample :: [], Status.OK⟩).1 = false →
      (verify rsaFalseOracle ecdsaFalseOracle shaIdOracle jwtEsExample
        ⟨ecKeyExample :: [], Status.OK⟩).2 = Status.JWT_INVALID_SIGNATURE) ∧
    (∀ (k' : Pubkey) (sig data : List Nat), sig.length = 64 →
      verifySignatureEC ecdsaFalseOracle shaIdOracle k' sig data =
        ecdsaFalseOracle k' (shaIdOracle data) (natFromBytes (sig.take 32))
          (natFromBytes (sig.drop 32))) :=
  verify_ec_signature_length rsaFalseOracle ecdsaFalseOracle shaIdOracle
    jwtEsExample ecKeyExample [] rfl rfl (by decide) rfl rfl (by decide)

/-! Helper lemmas about `Jwt::Jwt` and `Pubkeys::CreateFromJwksCore`. -/

theorem alg_allowlist_of_not (a : List Nat)
    (h : ¬(a ≠ str "RS256" ∧ a ≠ str "ES256" ∧ a ≠ str "RS384" ∧
      a ≠ str "RS512")) :
    a = str "RS256" ∨ a = str "ES256" ∨ a = str "RS384" ∨ a = str "RS512" := by
  tauto

theorem mkJwtPayload_alg (p : List Nat → Option PStruct)
    (s0 hstr a k s1 s2 : List Nat) (j : JwtModel)
    (h : mkJwtPayload p s0 hstr a k s1 s2 = some j) : j.alg = a := by
  unfold mkJwtPayload at h
  split at h
  · exact absurd h (by simp)
  · split at h
    · injection h with h
      subst h
      rfl
    · split at h
      · exact absurd h (by simp)
      · injection h with h
        subst h
        rfl

theorem processJwkEntries_clean (ecC : Nat → Nat → Bool) :
    ∀ (entries : List PStruct) (ks : List Pubkey) (st : Status),
      (∀ f ∈ entries,
        (extractPubkeyFromJwk ecC f).map ExtractResult.statusUpd =
          some none) →
      ∃ ks2, processJwkEntries ecC entries ks st = some (ks ++ ks2, st) ∧
        ((∃ f ∈ entries,
          (extractPubkeyFromJwk ecC f).map ExtractResult.newKey ≠
            some none) → ks2 ≠ []) := by
  intro entries
  induction entries with
  | nil =>
    intro ks st _
    exact ⟨[], by simp [processJwkEntries], by simp⟩
  | cons f rest ih =>
    intro ks st hall
    have hf := hall f (List.mem_cons_self f rest)
    cases hext : extractPubkeyFromJwk ecC f with
    | none => rw [hext] at hf; exact absurd hf (by simp)
    | some r =>
      rw [hext] at hf
      simp only [Option.map_some'] at hf
      injection hf with hf
      obtain ⟨ks2, hproc, hne⟩ := ih (ks ++ r.newKey.toList) st
        (fun x hx => hall x (List.mem_cons_of_mem f hx))
      refine ⟨r.newKey.toList ++ ks2, ?_, ?_⟩
      · simp only [processJwkEntries, hext, hf]
        rw [hproc, List.append_assoc]
      · intro hex
        rcases hex with ⟨g, hg, hgne⟩
        rcases List.mem_cons.mp hg with rfl | hg2
        · rw [hext] at hgne
          simp only [Option.map_some'] at hgne
          have hnk : r.newKey ≠ none := fun hnone => hgne (by rw [hnone])
          cases hk : r.newKey with
          | none => exact absurd hk hnk
          | some key => simp [hk]
        · have hk2 := hne ⟨g, hg2, hgne⟩
          intro happ
          rcases List.append_eq_nil.mp happ with ⟨_, h2⟩
          exact hk2 h2

/-- C3.  A token that got past header parsing (its terminal status is none
of the header-stage failures) carries an algorithm from the fixed
allow-list RS256/ES256/RS384/RS512; a token whose decoded header parses to
exactly the object with `alg` equal to `none` ends with status
ALG_NOT_IMPLEMENTED; and `Verifier::Verify` returns false for every token
whose status is ALG_NOT_IMPLEMENTED, against every key set and every
behavior of the cryptographic primitives. -/
theorem jwt_alg_allowlist :
    (∀ (p : List Nat → Option PStruct) (input : List Nat) (j : JwtModel),
      mkJwt p input = some j →
      j.status ≠ Status.JWT_BAD_FORMAT →
      j.status ≠ Status.JWT_HEADER_PARSE_ERROR →
      j.status ≠ Status.JWT_HEADER_NO_ALG →
      j.status ≠ Status.JWT_HEADER_BAD_ALG →
      j.status ≠ Status.ALG_NOT_IMPLEMENTED →
      (j.alg = str "RS256" ∨ j.alg = str "ES256" ∨ j.alg = str "RS384" ∨
        j.alg = str "RS512")) ∧
    (∀ (p : List Nat → Option PStruct) (input hstr : List Nat),
      input.count 46 = 2 → (splitToken input 46).length = 3 →
      base64UrlDecode ((splitToken input 46).getD 0 []) = some hstr →
      p hstr = some hdrNoneStruct →
      ∃ j, mkJwt p input = some j ∧
        j.status = Status.ALG_NOT_IMPLEMENTED) ∧
    (∀ (j : JwtModel) (rsaV : RsaVerifyOracle) (ecV : EcdsaVerifyOracle)
      (sha : Sha256Oracle) (pk : PubkeysModel),
      j.status = Status.ALG_NOT_IMPLEMENTED →
      (verify rsaV ecV sha j pk).1 = false) := by
  refine ⟨?_, ?_, ?_⟩
  · intro p input j h h1 h2 h3 h4 h5
    simp only [mkJwt] at h
    split at h
    · injection h with h; subst h; exact absurd rfl h1
    · split at h
      · injection h with h; subst h; exact absurd rfl h1
      · split at h
        · exact absurd h (by simp)
        · split at h
          · injection h with h; subst h; exact absurd rfl h2
          · split at h
            · injection h with h; subst h; exact absurd rfl h3
            · split at h
              · rename_i a ha
                split at h
                · injection h with h; subst h; exact absurd rfl h5
                · rename_i hcond
                  have hallow := alg_allowlist_of_not a hcond
                  split at h
                  · have := mkJwtPayload_alg _ _ _ _ _ _ _ _ h
                    rw [this]; exact hallow
                  · injection h with h; subst h; exact hallow
                  · have := mkJwtPayload_alg _ _ _ _ _ _ _ _ h
                    rw [this]; exact hallow
              · injection h with h; subst h; exact absurd rfl h4
  · intro p input hstr hc hl hd hps
    simp only [mkJwt, hc, hl, hd, hps, hdrNoneStruct, structFind]
    norm_num
    exact ⟨_, rfl, rfl⟩
  · intro j rsaV ecV sha pk h
    simp [verify, h]

/-- Witness for C3: the concrete token `tNone`, whose header segment
decodes to the alg-none header, parses to ALG_NOT_IMPLEMENTED. -/
theorem jwt_alg_allowlist_witness :
    tNone.count 46 = 2 ∧
    (∃ j, mkJwt pNone tNone = some j ∧
      j.status = Status.ALG_NOT_IMPLEMENTED) :=
  ⟨by decide,
   jwt_alg_allowlist.2.1 pNone tNone hdrNoneBytes (by decide) (by decide)
     (by decide) rfl⟩

/-- C4 counterexample.  A JWKS whose first entry has `kty` RSA with an
undecodable `n` (`!!!!`) and whose second entry is fully valid produces one
usable entry but status JWK_RSA_PUBKEY_PARSE_ERROR, not OK: the
key-construction error recorded by the first entry sticks even though the
second entry is usable. -/
theorem jwks_error_status_counterexample :
    (createFromJwksStruct ecAllValid cexJwksBadN).map
        (fun r => (r.keys.length, r.status)) =
      some (1, Status.JWK_RSA_PUBKEY_PARSE_ERROR) ∧
    Status.JWK_RSA_PUBKEY_PARSE_ERROR ≠ Status.OK := by decide

/-- C4 (amended).  The spec's two-entry example (one entry with `kty` RSA
missing `n`, one valid) yields exactly one usable entry and status OK; in
general the set's status is OK whenever at least one entry yields a usable
key AND no entry records a key-construction error status (entries rejected
before key construction — missing or non-string `kty`, bad `kid`/`alg`
types, missing `n`/`e`/`x`/`y` — never touch the status). -/
theorem jwks_skip_malformed_entries (ecC : Nat → Nat → Bool) (s : PStruct)
    (entries : List PStruct)
    (hkeys : getProtoListValueStruct s (str "keys") = some entries)
    (hclean : ∀ f ∈ entries,
      (extractPubkeyFromJwk ecC f).map ExtractResult.statusUpd = some none)
    (husable : ∃ f ∈ entries,
      (extractPubkeyFromJwk ecC f).map ExtractResult.newKey ≠ some none) :
    ((createFromJwksStruct ecAllValid specJwksExample).map
        (fun r => (r.keys.length, r.status)) = some (1, Status.OK)) ∧
    (∃ ks, createFromJwksStruct ecC s = some ⟨ks, Status.OK⟩ ∧ ks ≠ []) := by
  refine ⟨by decide, ?_⟩
  have hfind : ∃ v, structFind s (str "keys") = some v := by
    unfold getProtoListValueStruct at hkeys
    cases hsf : structFind s (str "keys") with
    | none => rw [hsf] at hkeys; exact absurd hkeys (by simp)
    | some v => exact ⟨v, rfl⟩
  obtain ⟨v, hv⟩ := hfind
  obtain ⟨ks2, hproc, hne⟩ :=
    processJwkEntries_clean ecC entries [] Status.OK hclean
  have hks2 : ks2 ≠ [] := hne husable
  refine ⟨ks2, ?_, hks2⟩
  simp only [createFromJwksStruct, hv, hkeys, hproc, List.nil_append]
  rw [if_neg (by simpa [List.length_eq_zero] using hks2)]

/-- Witness for C4 at the spec's two-entry example. -/
theorem jwks_skip_malformed_entries_witness :
    ((createFromJwksStruct ecAllValid specJwksExample).map
        (fun r => (r.keys.length, r.status)) = some (1, Status.OK)) ∧
    (∃ ks, createFromJwksStruct ecAllValid specJwksExample =
      some ⟨ks, Status.OK⟩ ∧ ks ≠ []) :=
  jwks_skip_malformed_entries ecAllValid specJwksExample
    [missingNEntry, validRsaEntry] rfl (by decide) (by decide)

/-- C5.  Against the claim: a payload whose `aud` is the scalar string
`"a"` yields an EMPTY audience (protobuf's `list_value()` accessor returns
the default empty list for a string-kind value, so `getProtoListValue`
returns an empty vector instead of `nullopt` and the scalar fallback is
dead code); the array form `["a","b"]` and the absent case behave as
claimed. -/
theorem aud_normalization_eval :
    audFromPayload [(str "aud", PValue.stringV (str "a"))] = [] ∧
    audFromPayload [(str "aud",
      PValue.listV [PValue.stringV (str "a"), PValue.stringV (str "b")])] =
      [str "a", str "b"] ∧
    audFromPayload [] = [] ∧
    ([] : List (List Nat)) ≠ [str "a"] := by decide

/-- C6.  Against the claim: a token whose payload parses to an object with
`aud` equal to `["a", 5]` (an array with a non-string element) parses with
terminal status OK and an empty audience — no JWT_PAYLOAD_PARSE_ERROR is
raised anywhere on that path in the HEAD-side code. -/
theorem aud_mixed_array_eval :
    (mkJwt pMixed tMixed).map (fun j => (j.status, j.aud)) =
      some (Status.OK, []) ∧
    Status.OK ≠ Status.JWT_PAYLOAD_PARSE_ERROR := by decide

/-- C7.  Against the claim: a JWKS whose `keys` field is a string (wrong
type, not an array) yields JWK_NO_VALID_PUBKEY, not JWK_BAD_KEYS
(protobuf's `list_value()` default turns the non-array into an empty
vector, so `getProtoListValue<Struct>` does not return `nullopt`).  The
absent-`keys` and non-object-element cases do behave as claimed. -/
theorem jwks_keys_wrong_type_eval :
    createFromJwksStruct ecAllValid cexJwksKeysString =
      some ⟨[], Status.JWK_NO_VALID_PUBKEY⟩ ∧
    Status.JWK_NO_VALID_PUBKEY ≠ Status.JWK_BAD_KEYS ∧
    createFromJwksStruct ecAllValid jwksNoKeys =
      some ⟨[], Status.JWK_NO_KEYS⟩ ∧
    createFromJwksStruct ecAllValid jwksNonObjectElement =
      some ⟨[], Status.JWK_BAD_KEYS⟩ := by decide

/-- C9.  Against the claim: an input containing a byte at or above 128
(here `0x80 41 41 41`) does not return the empty string — the `find_if`
scan sign-extends the byte to a negative `int8_t` and reads the 256-entry
lookup table out of bounds, which is undefined behavior (`none`), even
though the table itself has entries (all 64, i.e. reject) for indices
128-255. -/
theorem base64url_high_byte_oob :
    base64UrlDecode [128, 65, 65, 65] = none ∧
    findNotBase64UrlChar [128, 65, 65, 65] = none := by decide

/-- C10.  Against the claim: on the empty string (whose length 0 is
divisible by 4) the padding-stripping step evaluates `input[len - 1]`,
i.e. index -1, an out-of-bounds read with undefined behavior (`none`),
so not every character index access is within bounds. -/
theorem base64url_empty_input_oob :
    base64UrlDecode [] = none ∧ cppIndex [] (-1) = none ∧
    base64UrlStripPadding [] = none := by decide

end JwtAuth
